import Mathlib

/-!
Shallow embedding of the URL-shortener creation path
(`ShortenURL` in `api/routes/shorten.go`) of karthikbhandary2/url-shortener.

The handler talks to two Redis logical databases:
  * db 0 holds identifier → URL mappings,
  * db 1 holds client-IP → quota-counter strings,
both with Redis-native TTL expiry.  We model each database as a partial map
`String → Option String` together with a TTL map `String → Int` recording, in
nanoseconds, the time-to-live the store would report for the key.  Every store
call in the Go code can fail; the `Failures` record is an oracle saying, per
call site, whether that call's communication with the store fails.

External collaborators (`govalidator.IsURL`, `helpers.RemoveDomainError`) are
boolean predicates supplied in the environment, exactly as the handler uses
them.  `helpers.EnforceHTTP` is repository code not present under `src/`, so it
is modelled from the spec (see its doc comment).
-/

namespace UrlShortener

/-- Decimal accumulator of `strconv.Atoi`: consumes the rest of the string,
failing on any non-digit character. -/
def parseDigits : List Char → Nat → Option Nat
  | [], acc => some acc
  | c :: cs, acc =>
    if c.isDigit then parseDigits cs (acc * 10 + (c.toNat - 48)) else none

/-- Go `strconv.Atoi` success cases: an optional sign followed by one or more
decimal digits; anything else (in particular the empty string) is an error. -/
def goParseInt (s : String) : Option Int :=
  match s.data with
  | [] => none
  | '-' :: cs => if cs.isEmpty then none else (parseDigits cs 0).map (fun n => -(n : Int))
  | '+' :: cs => if cs.isEmpty then none else (parseDigits cs 0).map (fun n => (n : Int))
  | cs => (parseDigits cs 0).map (fun n => (n : Int))

/-- Go `strconv.Atoi` with the error discarded, as the handler uses it
(`val, _ := strconv.Atoi(value)`): a failed parse yields `0`. -/
def goAtoi (s : String) : Int := (goParseInt s).getD 0

/-- Nanoseconds in `time.Minute`. -/
def nsPerMinute : Int := 60000000000

/-- Nanoseconds in `time.Hour`. -/
def nsPerHour : Int := 3600000000000

/-- Go `d / time.Nanosecond / time.Minute` on a `time.Duration`:
64-bit integer division truncating toward zero. -/
def durToMinutes (d : Int) : Int := Int.tdiv d nsPerMinute

/-- Redis `DECR`: an absent key is set to `-1`; a key holding the decimal
representation of an integer is decremented; a key holding anything else makes
the command fail and leaves the value unchanged (the handler discards the
error anyway). -/
def redisDecr (v : Option String) : Option String :=
  match v with
  | none => some "-1"
  | some s =>
    match goParseInt s with
    | some n => some (toString (n - 1))
    | none => some s

/-- Whether a URL carries an explicit scheme, i.e. contains the `://`
separator. Used only by the spec-modelled `EnforceHTTP`. -/
def hasScheme (url : String) : Bool :=
  decide ("://".data <:+: url.data)

/-- Modelled from the spec: `helpers.EnforceHTTP` (file `api/helpers/helpers.go`
is not under `src/`).  Spec §4.2 step 3: "if the URL lacks an explicit scheme,
the scheme is set to secure transport (`https://`) by prefixing; existing
schemes are left untouched." -/
def EnforceHTTP (url : String) : String :=
  if hasScheme url then url else "https://" ++ url

/-- The two Redis logical databases the handler uses, with their TTL state. -/
structure Stores where
  /-- db 0: identifier → URL mapping. -/
  db0 : String → Option String
  /-- TTL (ns) the store would report for a db-0 key. -/
  db0TTL : String → Int
  /-- db 1: client IP → quota counter string. -/
  db1 : String → Option String
  /-- TTL (ns) the store would report for a db-1 key. -/
  db1TTL : String → Int

/-- Per-call-site failure oracle: `true` means that store call's communication
fails (Go: the call returns a non-`redis.Nil` error). The handler ignores the
error at every site except the first quota `Get` and the mapping `Set`. -/
structure Failures where
  /-- line 40: `redisClient.Get(ctx, ip)` fails. -/
  qGet1Err : Bool
  /-- line 42: initializing `Set(ctx, ip, API_QUOTA, 30min)` fails (`_ =`). -/
  qInitSetErr : Bool
  /-- line 46: second `Get(ctx, ip)` fails (error discarded, value `""`). -/
  qGet2Err : Bool
  /-- line 50: `TTL(ctx, ip)` fails (error discarded, duration `0`). -/
  qTTL1Err : Bool
  /-- line 78: `r.Get(ctx, id)` on db 0 fails (error discarded, value `""`). -/
  uGetErr : Bool
  /-- line 88: `r.Set(ctx, id, url, expiry*hour)` fails. -/
  uSetErr : Bool
  /-- line 103: `Decr(ctx, ip)` fails (error discarded). -/
  qDecrErr : Bool
  /-- line 105: post-decrement `Get(ctx, ip)` fails (error discarded). -/
  qGet3Err : Bool
  /-- line 114: post-decrement `TTL(ctx, ip)` fails (error discarded). -/
  qTTL2Err : Bool

/-- No store call fails. -/
def noFail : Failures := ⟨false, false, false, false, false, false, false, false, false⟩

/-- Environment of one request: configuration, the caller's identity, the
random identifier the UUID source would produce, and the two external boolean
predicates the handler calls. -/
structure Env where
  /-- `os.Getenv("API_QUOTA")`. -/
  apiQuota : String
  /-- `os.Getenv("DOMAIN")`. -/
  domain : String
  /-- `c.IP()`. -/
  ip : String
  /-- `uuid.New().String()[:6]`: the generated 6-character identifier. -/
  uuid6 : String
  /-- `govalidator.IsURL` (external library predicate). -/
  isURL : String → Bool
  /-- `helpers.RemoveDomainError` (external denylist predicate: `false` means
  the target domain is forbidden). -/
  removeDomainError : String → Bool

/-- A parsed request body (`request` struct): `url`, `short`, `expiry`.
`expiry` is a Go `time.Duration`, i.e. a bare int64 as parsed from JSON. -/
structure Request where
  url : String
  customShort : String
  expiry : Int

/-- Outcome of the quota phase, lines 40–53. -/
inductive QuotaResult where
  /-- 500 "cannot connect to the DB". -/
  | dbError
  /-- 503 "rate limit exceeded", carrying `rate_limit_reset` in minutes. -/
  | denied (resetMin : Int)
  /-- Fall through to the shortening logic. -/
  | allowed
deriving DecidableEq, Repr

/-- Lines 40–53 of `shorten.go`: the rate-limiting phase.
`Get(ip)`; on `redis.Nil` lazily `Set(ip, API_QUOTA, 30*time.Minute)` with the
error discarded; on any other error return 500; otherwise re-`Get`, `Atoi`
(errors discarded) and if the value is ≤ 0 return 503 with `TTL(ip)` divided
down to whole minutes. -/
def quotaCheck (f : Failures) (ip quota : String) (s : Stores) : QuotaResult × Stores :=
  if f.qGet1Err then
    (.dbError, s)
  else
    match s.db1 ip with
    | none =>
      -- err == redis.Nil: initialize the counter; the Set error is discarded
      let s1 := if f.qInitSetErr then s else
        { s with
            db1 := fun k => if k = ip then some quota else s.db1 k,
            db1TTL := fun k => if k = ip then 30 * nsPerMinute else s.db1TTL k }
      (.allowed, s1)
    | some v =>
      let value := if f.qGet2Err then "" else v
      let val := goAtoi value
      if val ≤ 0 then
        let limit := if f.qTTL1Err then 0 else s.db1TTL ip
        (.denied (durToMinutes limit), s)
      else
        (.allowed, s)

/-- Terminal outcome of `ShortenURL`. -/
inductive ShortenOutcome where
  /-- 500 "cannot connect to the DB" (quota `Get` failure, line 44, or mapping
  `Set` failure, line 90). -/
  | storageUnavailable
  /-- 503 "rate limit exceeded" with `rate_limit_reset` in minutes. -/
  | rateLimited (resetMin : Int)
  /-- 400 "invalid URL". -/
  | invalidURL
  /-- 503 "you cant hack the system". -/
  | forbiddenTarget
  /-- 403 "URL custom short is already in use". -/
  | identifierInUse
  /-- 200 with the `response` struct fields
  `url`, `short`, `expiry`, `rate_limit`, `rate_limit_reset`. -/
  | ok (url : String) (short : String) (expiry : Int) (remaining : Int) (resetMin : Int)
deriving DecidableEq, Repr

/-- Lines 88–118 of `shorten.go`: write the `id → url` mapping with TTL
`expiry * time.Hour`, decrement the quota counter and assemble the success
response.  `id`, `url` and `expiry` are the values the preceding steps
computed; `s1` is the store state the rate-limiting phase left behind. -/
def storeAndRespond (f : Failures) (e : Env) (id url : String) (expiry : Int)
    (s1 : Stores) : ShortenOutcome × Stores :=
  -- lines 88–91: write the mapping with TTL expiry*time.Hour
  if f.uSetErr then (.storageUnavailable, s1)
  else
    let s2 : Stores :=
      { s1 with
          db0 := fun k => if k = id then some url else s1.db0 k,
          db0TTL := fun k => if k = id then expiry * nsPerHour else s1.db0TTL k }
    -- line 103: Decr, error discarded
    let s3 := if f.qDecrErr then s2 else
      { s2 with
          db1 := fun k => if k = e.ip then redisDecr (s2.db1 e.ip) else s2.db1 k }
    -- lines 105–113: read the counter back; the `err` tested on lines
    -- 106–108 is the (nil) Set error from line 88, so the final else
    -- branch always runs and the response carries Atoi of the read value
    let valStr := if f.qGet3Err then "" else (s3.db1 e.ip).getD ""
    let remaining := goAtoi valStr
    -- lines 114–115: read the TTL back, error discarded
    let ttl := if f.qTTL2Err then 0 else s3.db1TTL e.ip
    (.ok url (e.domain ++ "/" ++ id) expiry remaining (durToMinutes ttl), s3)

/-- Lines 55–118 of `shorten.go`: what the handler does once the
rate-limiting phase has let the request through, starting from the store
state `s1` that phase left behind. -/
def shortenAllowed (f : Failures) (e : Env) (req : Request) (s1 : Stores) :
    ShortenOutcome × Stores :=
  -- line 55: govalidator.IsURL
  if !(e.isURL req.url) then (.invalidURL, s1)
  -- line 60: helpers.RemoveDomainError
  else if !(e.removeDomainError req.url) then (.forbiddenTarget, s1)
  else
    -- line 65: body.URL = helpers.EnforceHTTP(body.URL)
    let url := EnforceHTTP req.url
    -- lines 68–73: candidate identifier
    let id := if req.customShort = "" then e.uuid6 else req.customShort
    -- line 78: collision check; the Get error is discarded, so a failed Get
    -- reads as the empty string
    let existing := if f.uGetErr then "" else (s1.db0 id).getD ""
    if existing ≠ "" then (.identifierInUse, s1)
    else
      -- lines 84–86: default expiry
      let expiry := if req.expiry = 0 then 24 else req.expiry
      -- lines 88–118
      storeAndRespond f e id url expiry s1

/-- Lines 30–119 of `shorten.go`: the whole creation handler, as a function
from the failure oracle, environment, parsed request body and store state to
the terminal outcome and the final store state. -/
def shortenURL (f : Failures) (e : Env) (req : Request) (s : Stores) :
    ShortenOutcome × Stores :=
  -- lines 40–53: rate limiting
  match quotaCheck f e.ip e.apiQuota s with
  | (.dbError, s1) => (.storageUnavailable, s1)
  | (.denied m, s1) => (.rateLimited m, s1)
  | (.allowed, s1) => shortenAllowed f e req s1

/-- Empty stores: nothing mapped, all TTLs 0. -/
def emptyStores : Stores := ⟨fun _ => none, fun _ => 0, fun _ => none, fun _ => 0⟩

/-- A sample environment accepting every URL. -/
def sampleEnv : Env :=
  ⟨"10", "localhost:3000", "1.2.3.4", "abc123", fun _ => true, fun _ => true⟩

/-- A sample environment whose denylist predicate rejects every URL. -/
def denyEnv : Env :=
  ⟨"10", "localhost:3000", "1.2.3.4", "abc123", fun _ => true, fun _ => false⟩

/-- A sample environment with the per-client quota configured to `0`. -/
def zeroQuotaEnv : Env :=
  ⟨"0", "localhost:3000", "1.2.3.4", "abc123", fun _ => true, fun _ => true⟩

/-- Stores holding only a quota counter `c` for client `1.2.3.4`, with TTL
`ttl` nanoseconds, and no URL mappings. -/
def counterStores (c : String) (ttl : Int) : Stores :=
  ⟨fun _ => none, fun _ => 0,
   fun k => if k = "1.2.3.4" then some c else none,
   fun k => if k = "1.2.3.4" then ttl else 0⟩

/-- Stores holding only the mapping `used → https://other.com` in db 0. -/
def collidedStores : Stores :=
  ⟨fun k => if k = "used" then some "https://other.com" else none, fun _ => 0,
   fun _ => none, fun _ => 0⟩

/-! Helper lemmas. -/

/-- The rate-limiting phase never touches the mapping database. -/
theorem quotaCheck_db0_eq (f : Failures) (ip quota : String) (s : Stores) :
    (quotaCheck f ip quota s).2.db0 = s.db0 ∧ (quotaCheck f ip quota s).2.db0TTL = s.db0TTL := by
  unfold quotaCheck
  dsimp only
  repeat' split
  all_goals exact ⟨rfl, rfl⟩

/-- The storage-and-response tail never produces a rate-limiting outcome. -/
theorem storeAndRespond_ne_rateLimited (f : Failures) (e : Env) (id url : String)
    (expiry : Int) (s1 : Stores) (m : Int) :
    (storeAndRespond f e id url expiry s1).1 ≠ .rateLimited m := by
  unfold storeAndRespond
  dsimp only
  split <;> simp

/-- Once the rate-limiting phase has let a request through, no later step can
produce a rate-limiting outcome. -/
theorem shortenAllowed_ne_rateLimited (f : Failures) (e : Env) (req : Request)
    (s1 : Stores) (m : Int) :
    (shortenAllowed f e req s1).1 ≠ .rateLimited m := by
  unfold shortenAllowed
  dsimp only
  repeat' split
  all_goals first
    | apply storeAndRespond_ne_rateLimited
    | simp

/-! Claim theorems. -/

/-- C7: for every creation request from a client with no existing quota
counter, the quota phase initializes the counter to the configured quota value
with a fixed 30-minute time-to-live window and the request is allowed to
proceed. -/
theorem first_request_initializes_counter (f : Failures) (ip quota : String) (s : Stores)
    (h1 : f.qGet1Err = false) (h2 : s.db1 ip = none) (h3 : f.qInitSetErr = false) :
    (quotaCheck f ip quota s).1 = .allowed ∧
    (quotaCheck f ip quota s).2.db1 ip = some quota ∧
    (quotaCheck f ip quota s).2.db1TTL ip = 30 * nsPerMinute := by
  simp [quotaCheck, h1, h2, h3]

/-- C7 witness: a first observation of client `1.2.3.4` with quota `10`. -/
theorem first_request_initializes_counter_witness :
    (quotaCheck noFail "1.2.3.4" "10" emptyStores).1 = .allowed ∧
    (quotaCheck noFail "1.2.3.4" "10" emptyStores).2.db1 "1.2.3.4" = some "10" ∧
    (quotaCheck noFail "1.2.3.4" "10" emptyStores).2.db1TTL "1.2.3.4" = 30 * nsPerMinute :=
  first_request_initializes_counter noFail "1.2.3.4" "10" emptyStores rfl rfl rfl

/-- C10: a creation request from a client with no existing quota counter is
never denied for quota reasons — whatever string (even `"0"`) the quota is
configured to — because the remaining-count comparison only runs when a
counter already exists. -/
theorem fresh_client_never_rate_limited (f : Failures) (e : Env) (req : Request) (s : Stores)
    (h1 : f.qGet1Err = false) (h2 : s.db1 e.ip = none) :
    (quotaCheck f e.ip e.apiQuota s).1 = .allowed ∧
    ∀ m, (shortenURL f e req s).1 ≠ .rateLimited m := by
  have hq : (quotaCheck f e.ip e.apiQuota s).1 = .allowed := by
    simp [quotaCheck, h1, h2]
  refine ⟨hq, ?_⟩
  intro m
  unfold shortenURL
  rcases hp : quotaCheck f e.ip e.apiQuota s with ⟨r, s1⟩
  rw [hp] at hq
  dsimp at hq
  subst hq
  exact shortenAllowed_ne_rateLimited f e req s1 m

/-- C10 witness: a fresh client with the quota configured to `0` is allowed
and not rate-limited. -/
theorem fresh_client_never_rate_limited_witness :
    (quotaCheck noFail "1.2.3.4" "0" emptyStores).1 = .allowed ∧
    (shortenURL noFail zeroQuotaEnv ⟨"example.com", "", 0⟩ emptyStores).1 ≠ .rateLimited 0 := by
  have h := fresh_client_never_rate_limited noFail zeroQuotaEnv ⟨"example.com", "", 0⟩
    emptyStores rfl rfl
  exact ⟨h.1, h.2 0⟩

/-- C2: a creation request from a client whose existing quota counter is ≤ 0
fails with the rate-limiting outcome carrying the counter's remaining TTL in
whole minutes, and mutates neither store. -/
theorem exhausted_quota_rate_limited_no_writes (f : Failures) (e : Env) (req : Request)
    (s : Stores) (v : String)
    (h1 : f.qGet1Err = false) (h2 : s.db1 e.ip = some v) (h3 : f.qGet2Err = false)
    (h4 : goAtoi v ≤ 0) (h5 : f.qTTL1Err = false) :
    shortenURL f e req s = (.rateLimited (durToMinutes (s.db1TTL e.ip)), s) := by
  have hq : quotaCheck f e.ip e.apiQuota s = (.denied (durToMinutes (s.db1TTL e.ip)), s) := by
    simp [quotaCheck, h1, h2, h3, h4, h5]
  unfold shortenURL
  rw [hq]

/-- C2 witness: a counter at `0` with five minutes left yields `rateLimited 5`
and leaves the stores untouched. -/
theorem exhausted_quota_rate_limited_no_writes_witness :
    shortenURL noFail sampleEnv ⟨"example.com", "", 0⟩ (counterStores "0" 300000000000)
      = (.rateLimited 5, counterStores "0" 300000000000) := by
  have h := exhausted_quota_rate_limited_no_writes noFail sampleEnv ⟨"example.com", "", 0⟩
    (counterStores "0" 300000000000) "0" rfl rfl rfl (by decide) rfl
  exact h

/-- C3 counterexample: the claim says any quota-store communication failure
terminates the request with a transient infrastructure error and aborts the
protected action without side effects.  But the handler discards the error of
the decrement (line 103): with the decrement failing and everything else
healthy, the request still terminates successfully, the mapping is written,
and the counter is left undecremented. -/
theorem decr_failure_not_infrastructure_error :
    (⟨false, false, false, false, false, false, true, false, false⟩ : Failures).qDecrErr = true ∧
    (shortenURL ⟨false, false, false, false, false, false, true, false, false⟩ sampleEnv
        ⟨"example.com", "", 0⟩ (counterStores "5" 1800000000000)).1
      = .ok "https://example.com" "localhost:3000/abc123" 24 5 30 ∧
    (shortenURL ⟨false, false, false, false, false, false, true, false, false⟩ sampleEnv
        ⟨"example.com", "", 0⟩ (counterStores "5" 1800000000000)).2.db0 "abc123"
      = some "https://example.com" :=
  ⟨rfl, rfl, rfl⟩

/-- C3 amended: only a failure of the initial quota `Get` (line 40) terminates
the request with a transient infrastructure error — not a quota denial — and
aborts the protected action without any store write; failures of the other
quota-store operations (initializing set, TTL queries, decrement, post-
decrement reads) are discarded and the request proceeds. -/
theorem quota_get_failure_aborts_without_side_effects (f : Failures) (e : Env)
    (req : Request) (s : Stores) (h : f.qGet1Err = true) :
    shortenURL f e req s = (.storageUnavailable, s) := by
  have hq : quotaCheck f e.ip e.apiQuota s = (.dbError, s) := by
    simp [quotaCheck, h]
  unfold shortenURL
  rw [hq]

/-- C3 amended witness: a failing initial quota `Get` yields the
infrastructure-error outcome and leaves the stores untouched. -/
theorem quota_get_failure_aborts_without_side_effects_witness :
    shortenURL ⟨true, false, false, false, false, false, false, false, false⟩ sampleEnv
        ⟨"example.com", "", 0⟩ emptyStores
      = (.storageUnavailable, emptyStores) :=
  quota_get_failure_aborts_without_side_effects
    ⟨true, false, false, false, false, false, false, false, false⟩ sampleEnv
    ⟨"example.com", "", 0⟩ emptyStores rfl

/-- C1: if the store already holds a non-empty value at the candidate
identifier — whether that identifier was supplied as `short` or generated from
the UUID source — the request fails with the identifier-in-use outcome and the
mapping database is not written. -/
theorem identifierInUse_writes_no_mapping (f : Failures) (e : Env) (req : Request)
    (s : Stores) (v : String)
    (hq : (quotaCheck f e.ip e.apiQuota s).1 = .allowed)
    (hu : e.isURL req.url = true)
    (hd : e.removeDomainError req.url = true)
    (hg : f.uGetErr = false)
    (hv : s.db0 (if req.customShort = "" then e.uuid6 else req.customShort) = some v)
    (hne : v ≠ "") :
    (shortenURL f e req s).1 = .identifierInUse ∧
    (shortenURL f e req s).2.db0 = s.db0 := by
  rcases hp : quotaCheck f e.ip e.apiQuota s with ⟨r, s1⟩
  rw [hp] at hq
  dsimp at hq
  subst hq
  have hdb0 : s1.db0 = s.db0 := by
    have h := (quotaCheck_db0_eq f e.ip e.apiQuota s).1
    rw [hp] at h
    exact h
  unfold shortenURL
  rw [hp]
  dsimp only
  unfold shortenAllowed
  simp only [hu, hd, hg, Bool.not_true, Bool.false_eq_true, if_false, hdb0, hv]
  simp [hne, hdb0]

/-- C1 witness: a custom identifier `used` already mapping to a non-empty
URL is rejected and db 0 is unchanged. -/
theorem identifierInUse_writes_no_mapping_witness :
    (shortenURL noFail sampleEnv ⟨"example.com", "used", 0⟩ collidedStores).1
      = .identifierInUse ∧
    (shortenURL noFail sampleEnv ⟨"example.com", "used", 0⟩ collidedStores).2.db0
      = collidedStores.db0 :=
  identifierInUse_writes_no_mapping noFail sampleEnv ⟨"example.com", "used", 0⟩
    collidedStores "https://other.com" rfl rfl rfl rfl rfl (by decide)

/-- C9 counterexample: the claim says a forbidden-target request performs no
store write, in particular that no quota-store key is written.  But the
rate-limiting phase runs before the denylist check, so a first-time client's
counter is lazily initialized even though the request then fails with the
forbidden-target outcome: a quota-store key is written. -/
theorem forbidden_target_writes_quota_key_for_fresh_client :
    emptyStores.db1 "1.2.3.4" = none ∧
    (shortenURL noFail denyEnv ⟨"example.com", "", 0⟩ emptyStores).1 = .forbiddenTarget ∧
    (shortenURL noFail denyEnv ⟨"example.com", "", 0⟩ emptyStores).2.db1 "1.2.3.4"
      = some "10" :=
  ⟨rfl, rfl, rfl⟩

/-- C9 amended: a creation request whose target URL matches the
forbidden-domain predicate fails with the forbidden-target outcome and writes
no identifier→URL mapping; the quota store is left exactly as the preceding
rate-limiting phase left it (which lazily initializes a first-time client's
counter), with no further quota write. -/
theorem forbidden_target_writes_no_mapping (f : Failures) (e : Env) (req : Request)
    (s : Stores)
    (hq : (quotaCheck f e.ip e.apiQuota s).1 = .allowed)
    (hu : e.isURL req.url = true)
    (hd : e.removeDomainError req.url = false) :
    (shortenURL f e req s).1 = .forbiddenTarget ∧
    (shortenURL f e req s).2.db0 = s.db0 ∧
    (shortenURL f e req s).2 = (quotaCheck f e.ip e.apiQuota s).2 := by
  rcases hp : quotaCheck f e.ip e.apiQuota s with ⟨r, s1⟩
  rw [hp] at hq
  dsimp at hq
  subst hq
  have hdb0 : s1.db0 = s.db0 := by
    have h := (quotaCheck_db0_eq f e.ip e.apiQuota s).1
    rw [hp] at h
    exact h
  unfold shortenURL
  rw [hp]
  dsimp only
  unfold shortenAllowed
  simp [hu, hd, hdb0]

/-- C9 amended witness: a forbidden target from a client with an existing
counter leaves db 0 untouched and the final state equal to the quota phase's
state. -/
theorem forbidden_target_writes_no_mapping_witness :
    (shortenURL noFail denyEnv ⟨"example.com", "", 0⟩ (counterStores "5" 1800000000000)).1
      = .forbiddenTarget ∧
    (shortenURL noFail denyEnv ⟨"example.com", "", 0⟩ (counterStores "5" 1800000000000)).2.db0
      = (counterStores "5" 1800000000000).db0 ∧
    (shortenURL noFail denyEnv ⟨"example.com", "", 0⟩ (counterStores "5" 1800000000000)).2
      = (quotaCheck noFail "1.2.3.4" "10" (counterStores "5" 1800000000000)).2 :=
  forbidden_target_writes_no_mapping noFail denyEnv ⟨"example.com", "", 0⟩
    (counterStores "5" 1800000000000) (by decide) rfl rfl

/-- C4: when the mapping write fails for a client with an existing positive
counter, the request fails with the storage-unavailable outcome and the entire
store state — in particular the quota counter, which is never decremented — is
unchanged. -/
theorem mapping_write_failure_skips_decrement (f : Failures) (e : Env) (req : Request)
    (s : Stores) (v : String)
    (h1 : f.qGet1Err = false) (h2 : s.db1 e.ip = some v) (h3 : f.qGet2Err = false)
    (h4 : 0 < goAtoi v)
    (hu : e.isURL req.url = true) (hd : e.removeDomainError req.url = true)
    (hg : f.uGetErr = false)
    (hid : s.db0 (if req.customShort = "" then e.uuid6 else req.customShort) = none)
    (hw : f.uSetErr = true) :
    shortenURL f e req s = (.storageUnavailable, s) := by
  have hq : quotaCheck f e.ip e.apiQuota s = (.allowed, s) := by
    simp [quotaCheck, h1, h2, h3, not_le.mpr h4]
  unfold shortenURL
  rw [hq]
  unfold shortenAllowed
  dsimp only
  simp only [hu, hd, hg, Bool.not_true, Bool.false_eq_true, if_false, hid]
  unfold storeAndRespond
  simp [hw]

/-- C4 witness: a failing mapping write for a client with counter `5` yields
the storage-unavailable outcome and the identical store state. -/
theorem mapping_write_failure_skips_decrement_witness :
    shortenURL ⟨false, false, false, false, false, true, false, false, false⟩ sampleEnv
        ⟨"example.com", "", 0⟩ (counterStores "5" 1800000000000)
      = (.storageUnavailable, counterStores "5" 1800000000000) :=
  mapping_write_failure_skips_decrement
    ⟨false, false, false, false, false, true, false, false, false⟩ sampleEnv
    ⟨"example.com", "", 0⟩ (counterStores "5" 1800000000000) "5"
    rfl rfl rfl (by decide) rfl rfl rfl rfl rfl

/-- C5: normalization prepends `https://` exactly once when the URL lacks an
explicit scheme, leaves a URL that already has a scheme untouched, and is
idempotent. -/
theorem enforceHTTP_normalization (url : String) :
    (hasScheme url = false → EnforceHTTP url = "https://" ++ url) ∧
    (hasScheme url = true → EnforceHTTP url = url) ∧
    EnforceHTTP (EnforceHTTP url) = EnforceHTTP url := by
  have hstep : ∀ u, hasScheme u = false → EnforceHTTP u = "https://" ++ u := by
    intro u h
    simp [EnforceHTTP, h]
  have hkeep : ∀ u, hasScheme u = true → EnforceHTTP u = u := by
    intro u h
    simp [EnforceHTTP, h]
  refine ⟨hstep url, hkeep url, ?_⟩
  cases h : hasScheme url with
  | true => rw [hkeep url h, hkeep url h]
  | false =>
    rw [hstep url h]
    apply hkeep
    unfold hasScheme
    apply decide_eq_true
    have h1 : "://".data <:+: "https://".data := by decide
    have h2 : "https://".data <+: ("https://" ++ url).data := by
      rw [String.data_append]
      exact List.prefix_append _ _
    exact h1.trans h2.isInfix

/-- C5 witness: `example.com` gains the scheme once; an already-schemed URL is
untouched. -/
theorem enforceHTTP_normalization_witness :
    hasScheme "example.com" = false ∧
    EnforceHTTP "example.com" = "https://example.com" ∧
    hasScheme "https://example.com" = true ∧
    EnforceHTTP "https://example.com" = "https://example.com" := by
  refine ⟨by decide, ?_, by decide, ?_⟩
  · exact (enforceHTTP_normalization "example.com").1 (by decide)
  · exact (enforceHTTP_normalization "https://example.com").2.1 (by decide)

/-- C6: on the successful path the mapping is stored under the candidate
identifier with the normalized URL, with a TTL of 24 hours when the caller
supplied no expiry (`0`, Go's zero value for a missing field) and of
`expiry` hours otherwise. -/
theorem mapping_stored_with_resolved_expiry (f : Failures) (e : Env) (req : Request)
    (s : Stores)
    (hq : (quotaCheck f e.ip e.apiQuota s).1 = .allowed)
    (hu : e.isURL req.url = true) (hd : e.removeDomainError req.url = true)
    (hg : f.uGetErr = false)
    (hid : s.db0 (if req.customShort = "" then e.uuid6 else req.customShort) = none)
    (hset : f.uSetErr = false) :
    (shortenURL f e req s).2.db0 (if req.customShort = "" then e.uuid6 else req.customShort)
      = some (EnforceHTTP req.url) ∧
    (req.expiry = 0 →
      (shortenURL f e req s).2.db0TTL (if req.customShort = "" then e.uuid6 else req.customShort)
        = 24 * nsPerHour) ∧
    (req.expiry ≠ 0 →
      (shortenURL f e req s).2.db0TTL (if req.customShort = "" then e.uuid6 else req.customShort)
        = req.expiry * nsPerHour) := by
  rcases hp : quotaCheck f e.ip e.apiQuota s with ⟨r, s1⟩
  rw [hp] at hq
  dsimp at hq
  subst hq
  have hdb0 : s1.db0 = s.db0 := by
    have h := (quotaCheck_db0_eq f e.ip e.apiQuota s).1
    rw [hp] at h
    exact h
  unfold shortenURL
  rw [hp]
  dsimp only
  unfold shortenAllowed
  simp only [hu, hd, hg, Bool.not_true, Bool.false_eq_true, if_false, hdb0, hid]
  unfold storeAndRespond
  simp only [hset, Bool.false_eq_true, if_false]
  cases hdecr : f.qDecrErr <;> simp [hdecr]
  all_goals exact ⟨fun h h2 => absurd h h2, fun h h2 => absurd h2 h⟩

/-- C6 witness: with no expiry supplied the TTL is 24 hours; with 5 supplied
it is 5 hours. -/
theorem mapping_stored_with_resolved_expiry_witness :
    (shortenURL noFail sampleEnv ⟨"example.com", "", 0⟩ emptyStores).2.db0 "abc123"
      = some "https://example.com" ∧
    (shortenURL noFail sampleEnv ⟨"example.com", "", 0⟩ emptyStores).2.db0TTL "abc123"
      = 24 * nsPerHour ∧
    (shortenURL noFail sampleEnv ⟨"example.com", "", 5⟩ emptyStores).2.db0TTL "abc123"
      = 5 * nsPerHour := by
  have h0 := mapping_stored_with_resolved_expiry noFail sampleEnv ⟨"example.com", "", 0⟩
    emptyStores (by decide) rfl rfl rfl rfl rfl
  have h5 := mapping_stored_with_resolved_expiry noFail sampleEnv ⟨"example.com", "", 5⟩
    emptyStores (by decide) rfl rfl rfl rfl rfl
  exact ⟨h0.1, h0.2.1 rfl, h5.2.2 (by decide)⟩

/-- C8: on the successful path for a client whose counter holds the integer
`n > 0`, the counter is decremented exactly once (the store afterwards holds
the string for `n - 1`), and the response reports the remaining quota parsed
from the value read back after the decrement and the reset time read back
from the store's TTL — not locally computed values. -/
theorem success_decrements_once_and_reads_back (f : Failures) (e : Env) (req : Request)
    (s : Stores) (v : String) (n : Int)
    (h1 : f.qGet1Err = false) (h2 : s.db1 e.ip = some v) (h3 : f.qGet2Err = false)
    (hn : goParseInt v = some n) (hpos : 0 < n)
    (hu : e.isURL req.url = true) (hd : e.removeDomainError req.url = true)
    (hg : f.uGetErr = false)
    (hid : s.db0 (if req.customShort = "" then e.uuid6 else req.customShort) = none)
    (hset : f.uSetErr = false) (hdecr : f.qDecrErr = false)
    (hg3 : f.qGet3Err = false) (httl : f.qTTL2Err = false) :
    (shortenURL f e req s).2.db1 e.ip = some (toString (n - 1)) ∧
    (shortenURL f e req s).1 =
      .ok (EnforceHTTP req.url)
          (e.domain ++ "/" ++ (if req.customShort = "" then e.uuid6 else req.customShort))
          (if req.expiry = 0 then 24 else req.expiry)
          (goAtoi (toString (n - 1)))
          (durToMinutes (s.db1TTL e.ip)) := by
  have hpos2 : ¬ (goAtoi v ≤ 0) := by
    rw [goAtoi, hn]
    exact not_le.mpr hpos
  have hq : quotaCheck f e.ip e.apiQuota s = (.allowed, s) := by
    simp [quotaCheck, h1, h2, h3, hpos2]
  unfold shortenURL
  rw [hq]
  unfold shortenAllowed
  dsimp only
  simp only [hu, hd, hg, Bool.not_true, Bool.false_eq_true, if_false, hid]
  unfold storeAndRespond
  simp only [hset, hdecr, hg3, httl, Bool.false_eq_true, if_false]
  simp [h2, redisDecr, hn]

/-- C8 witness: a counter at `5` with a 30-minute TTL ends at `"4"` and the
response reports remaining `4` and reset `30`. -/
theorem success_decrements_once_and_reads_back_witness :
    (shortenURL noFail sampleEnv ⟨"example.com", "", 0⟩
        (counterStores "5" 1800000000000)).2.db1 "1.2.3.4" = some "4" ∧
    (shortenURL noFail sampleEnv ⟨"example.com", "", 0⟩
        (counterStores "5" 1800000000000)).1
      = .ok "https://example.com" "localhost:3000/abc123" 24 4 30 := by
  have h := success_decrements_once_and_reads_back noFail sampleEnv ⟨"example.com", "", 0⟩
    (counterStores "5" 1800000000000) "5" 5 rfl rfl rfl rfl (by decide) rfl rfl rfl rfl
    rfl rfl rfl rfl
  exact h

end UrlShortener
